import Mathlib

/-!
Verification development for the `general_researcher` repository.

We shallowly embed the parts of the code base that the behavioural claims
are about:

* `src/architectures/common.py` — citation extraction (`extract_citations`);
* `src/tools/search_tools.py` — `ToolCallStats` (`record` / `reset`);
* `src/agents/client.py` — the tool-call dispatch loop of
  `FoundryAgentManager.run_agent` and `_execute_tool_calls`;
* `src/evaluation/steps.py` — the step registry, `match_step` and every
  registered step definition;
* `src/evaluation/dsl.py` / `src/evaluation/runner.py` — `StepResult`,
  `ScenarioResult` scoring and `EvalRunner.run_scenario`;
* `src/architectures/researcher_critic.py`, `supervisor_worker.py`,
  `plan_and_execute.py` — the bounded critic-feedback loops.

Python floats are modelled as exact rationals (`ℚ`), Python ints as `ℤ`/`ℕ`,
and Python strings as Lean `String`s (lists of characters).  Calls to the
generation backend are modelled as oracles (`ℕ → _` functions giving the
reply of each round), since the backend is an external collaborator.
-/

/-! ### Python string primitives

`pyLower` models `str.lower()` (per-character lowercasing — the repository
only ever lowercases ASCII step patterns and assertion text),
`startsWithL`/`strStartsWith` model `str.startswith`, and
`containsSub`/`strContains` model the Python `in` substring test. -/

/-- Model of Python `str.lower()`: lowercase every character. -/
def pyLower (s : String) : String := ⟨s.data.map Char.toLower⟩

/-- Boolean test that list `s` starts with list `p` (models `str.startswith`). -/
def startsWithL : List Char → List Char → Bool
  | _, [] => true
  | [], _ :: _ => false
  | c :: cs, p :: ps => c == p && startsWithL cs ps

/-- `s.startswith(p)` on strings. -/
def strStartsWith (s p : String) : Bool := startsWithL s.data p.data

/-- Boolean substring test: does `sub` occur contiguously in `s`
(models Python `sub in s`). -/
def containsSub : List Char → List Char → Bool
  | [], sub => sub.isEmpty
  | c :: cs, sub => startsWithL (c :: cs) sub || containsSub cs sub

/-- `sub in s` on strings. -/
def strContains (s sub : String) : Bool := containsSub s.data sub.data

/-- Value of a decimal-digit character run, most significant first
(models Python `int` applied to a digit string). -/
def digitsToNat (l : List Char) : ℕ :=
  l.foldl (fun acc c => acc * 10 + (c.toNat - 48)) 0

/-- The decimal digit character for `d < 10`. -/
def digitChar10 (d : ℕ) : Char := Char.ofNat (48 + d)

/-- Decimal digit characters of `n`, most significant first
(fuel-driven so that it is structurally recursive). -/
def natDigitsAux : ℕ → ℕ → List Char
  | 0, _ => []
  | fuel + 1, n =>
      if n < 10 then [digitChar10 n]
      else natDigitsAux fuel (n / 10) ++ [digitChar10 (n % 10)]

/-- Model of Python `str(n)` for a nonnegative integer. -/
def natStr (n : ℕ) : String := ⟨natDigitsAux (n + 1) n⟩

/-- First maximal digit run in a character list, as a number; `0` when the
text holds no digit.  Models `_extract_number` in
`src/evaluation/steps.py` (`re.search` for a digit run, default `0`). -/
def firstNumberIn : List Char → ℕ
  | [] => 0
  | c :: cs =>
      if c.isDigit then digitsToNat (c :: cs.takeWhile Char.isDigit)
      else firstNumberIn cs

/-- `_extract_number(text)` from `src/evaluation/steps.py`. -/
def extractNumber (text : String) : ℕ := firstNumberIn text.data

/-! ### Citation extraction (`src/architectures/common.py`)

`extract_citations` runs `re.findall` with the pattern matching a literal
opening bracket, one or more digits, and a closing bracket, converts each
captured digit string with `int`, deduplicates (`set`), sorts ascending,
and renders each number back with `str` into a citation record.

`scanCitationsAux` is a left-to-right character automaton equivalent to
that regular-expression scan: the state holds the digit run collected
since the last unclosed opening bracket (`none` = not inside a candidate
match).  Matches never overlap and scanning resumes after a completed
match, exactly as `re.findall` does. -/

/-- Automaton for the citation-marker scan of `extract_citations`. -/
def scanCitationsAux : List Char → Option (List Char) → List ℕ
  | [], _ => []
  | c :: cs, none =>
      scanCitationsAux cs (if c = '[' then some [] else none)
  | c :: cs, some ds =>
      if c.isDigit then scanCitationsAux cs (some (ds ++ [c]))
      else if c = ']' then
        match ds with
        | [] => scanCitationsAux cs none
        | _ :: _ => digitsToNat ds :: scanCitationsAux cs none
      else if c = '[' then scanCitationsAux cs (some [])
      else scanCitationsAux cs none

/-- The numbers of every citation marker in `answer`, in textual order,
with duplicates kept (models `re.findall` + `int` in `extract_citations`). -/
def citationNumbersIn (answer : String) : List ℕ :=
  scanCitationsAux answer.data none

/-- `sorted(set(...))` over the citation numbers of `answer`. -/
def sortedCitationNums (answer : String) : List ℕ :=
  List.insertionSort (· ≤ ·) (citationNumbersIn answer).dedup

/-- One entry of the citation list: a record with the marker number
rendered as a string (models the Python dict with the `number` key). -/
structure Citation where
  number : String
deriving DecidableEq, Repr

/-- `extract_citations(answer)` from `src/architectures/common.py`. -/
def extract_citations (answer : String) : List Citation :=
  (sortedCitationNums answer).map (fun n => ⟨natStr n⟩)

/-! ### Tool-call statistics (`src/tools/search_tools.py`)

`ToolCallStats` holds two mutable counters; `record` is called by every
search tool with the tool's function name and its JSON output string, and
`reset` returns the pre-reset values while clearing both counters.  The
lock only guards concurrent increments and has no sequential behaviour,
so the embedding is plain state passing.  Tool outputs are modelled as an
optional JSON value (`none` = the output string failed to parse, which
`record` ignores). -/

/-- A JSON value, as far as `ToolCallStats.record` inspects it: it only
distinguishes arrays (counted by length), objects (counted as one document
unless they carry an `error` key) and everything else. -/
inductive Json where
  | null : Json
  | bool (b : Bool) : Json
  | num (q : ℚ) : Json
  | str (s : String) : Json
  | arr (items : List Json) : Json
  | obj (fields : List (String × Json)) : Json

/-- State of a `ToolCallStats` instance. -/
structure ToolCallStats where
  documents_retrieved : ℕ
  sources_called : List String
deriving Repr, DecidableEq

/-- The freshly constructed stats object. -/
def initialStats : ToolCallStats := ⟨0, []⟩

/-- `ToolCallStats.record(fn_name, output)`: append the function name if it
is new, and bump the document count according to the parsed output
(`none` models an output string that is not valid JSON). -/
def ToolCallStats.record (st : ToolCallStats) (fn_name : String)
    (output : Option Json) : ToolCallStats :=
  let sources :=
    if fn_name ∈ st.sources_called then st.sources_called
    else st.sources_called ++ [fn_name]
  let docs :=
    match output with
    | some (.arr items) => st.documents_retrieved + items.length
    | some (.obj fields) =>
        if fields.any (fun f => f.1 = "error") then st.documents_retrieved
        else st.documents_retrieved + 1
    | _ => st.documents_retrieved
  ⟨docs, sources⟩

/-- `ToolCallStats.reset()`: return the pre-reset counters and clear both. -/
def ToolCallStats.reset (st : ToolCallStats) :
    (ℕ × List String) × ToolCallStats :=
  ((st.documents_retrieved, st.sources_called), ⟨0, []⟩)

/-! ### The tool-call dispatch loop (`src/agents/client.py`)

`run_agent` issues one backend call, then loops: while the latest response
still contains function tool calls and fewer than `max_rounds = 10` rounds
have run, it executes the tool calls and re-invokes the backend with their
outputs.  Afterwards it extracts whatever text the final response holds.
The backend is modelled as the initial response plus an oracle giving the
response produced after each tool round.  `_execute_tool_calls` executes
each call, catching any exception and converting it into an error-object
function-call output (never re-raising). -/

/-- One pending function tool call of a backend response. -/
structure FnCall where
  call_id : String
  name : String
  arguments : String
deriving Repr, DecidableEq

/-- A backend response, as far as the loop inspects it: its pending
function tool calls and its output text. -/
structure Resp where
  fnCalls : List FnCall
  text : String
deriving Repr, DecidableEq

/-- Output of one executed tool call: either the tool's output string or
the serialized error object built from a caught exception
(`json.dumps` of a dict with the single key `error`). -/
inductive ToolOutput where
  | success (s : String) : ToolOutput
  | errJson (msg : String) : ToolOutput
deriving Repr, DecidableEq

/-- One function-call output fed back to the backend. -/
structure FnOutput where
  call_id : String
  output : ToolOutput
deriving Repr, DecidableEq

/-- `_execute_tool_calls(fn_calls, ...)`: run every call through the tool
executor `exec` (an `Except` models Python raising), catching failures
individually. -/
def executeToolCalls (exec : FnCall → Except String String)
    (calls : List FnCall) : List FnOutput :=
  calls.map (fun fc =>
    match exec fc with
    | .ok s => ⟨fc.call_id, .success s⟩
    | .error e => ⟨fc.call_id, .errJson e⟩)

/-- The `for round_num in range(max_rounds)` loop of `run_agent`: starting
from response `r` with `rounds` tool rounds already executed and `fuel`
rounds still allowed, return the final response together with the total
number of tool rounds executed.  `next i` is the backend's response after
the `i`-th tool round. -/
def toolLoop (next : ℕ → Resp) : ℕ → ℕ → Resp → Resp × ℕ
  | rounds, 0, r => (r, rounds)
  | rounds, fuel + 1, r =>
      if r.fnCalls.isEmpty then (r, rounds)
      else toolLoop next (rounds + 1) fuel (next rounds)

/-- `run_agent` after its initial backend call: run the tool-call loop with
`max_rounds = 10` and return the final response text plus the number of
tool rounds executed. -/
def runAgentLoop (initResp : Resp) (next : ℕ → Resp) : String × ℕ :=
  let (finalResp, rounds) := toolLoop next 0 10 initResp
  (finalResp.text, rounds)

/-! ### Python `round(x, 2)` on exact rationals

`_max_time` in `src/evaluation/steps.py` returns `round(score, 2)`.
Python rounds to the nearest representable value with ties going to the
even last digit; over exact rationals this is round-half-to-even on
hundredths. -/

/-- Round to the nearest integer, ties to the even integer. -/
def roundHalfEven (q : ℚ) : ℤ :=
  if Int.fract q < 1 / 2 then ⌊q⌋
  else if 1 / 2 < Int.fract q then ⌊q⌋ + 1
  else if ⌊q⌋ % 2 = 0 then ⌊q⌋ else ⌊q⌋ + 1

/-- Model of Python `round(q, 2)`. -/
def pyRound2 (q : ℚ) : ℚ := (roundHalfEven (100 * q) : ℚ) / 100

/-! ### Evaluation data model (`src/evaluation/dsl.py`, `runner.py`)

`StepResult` and `ResearchOutput` are direct translations of the
dataclasses.  A step argument (`*args` entry of a `then` clause) is an
int, a string or a float; `valAsInt`, `valAsRat` and `valAsStr` model the
`int(...)`, `float(...)` and `str(...)` conversions the step functions
apply to `args[0]` (the repository only ever passes a value of the
type the step expects). -/

/-- Result of a single `then` assertion (`StepResult` in `dsl.py`). -/
structure StepResult where
  step_text : String
  score : ℚ
  metric : String := ""
  detail : String := ""
  is_llm_judged : Bool := false
deriving Repr, DecidableEq

/-- `StepResult.passed`: a step passes when its score is above `0.5`. -/
def StepResult.stepPassed (r : StepResult) : Bool := r.score > 1 / 2

/-- Normalized research output handed to the steps
(`ResearchOutput` in `runner.py`). -/
structure ResearchOutput where
  query : String
  answer : String
  completion_time : ℚ
  documents_retrieved : ℕ
  citations_count : ℕ
  sources_used : List String
deriving Repr, DecidableEq

/-- One positional argument of a `then` assertion. -/
inductive StepArg where
  | intArg (n : ℤ) : StepArg
  | strArg (s : String) : StepArg
  | ratArg (q : ℚ) : StepArg
deriving Repr, DecidableEq

/-- `int(arg)` (arguments used as thresholds are ints in every scenario;
for floats Python truncates toward zero, irrelevant at the call sites). -/
def valAsInt : StepArg → ℤ
  | .intArg n => n
  | .ratArg q => q.num / q.den
  | .strArg s => (digitsToNat s.data : ℤ)

/-- `float(arg)`. -/
def valAsRat : StepArg → ℚ
  | .intArg n => (n : ℚ)
  | .ratArg q => q
  | .strArg s => (digitsToNat s.data : ℚ)

/-- `str(arg)` (the rendering of a float is approximated; no claim
inspects it). -/
def valAsStr : StepArg → String
  | .intArg n => toString n
  | .ratArg q => toString q
  | .strArg s => s

/-- `str(args[0]) if args else ""`. -/
def headStr : List StepArg → String
  | [] => ""
  | a :: _ => valAsStr a

/-- The single-quote character, used in step detail texts. -/
def sglQuote : String := String.singleton (Char.ofNat 39)

/-- Result of one judge call (the dict returned by `LLMJudge.judge_*`):
`score` is absent when the judge reported none, in which case the step
falls back on `passed`. -/
structure JudgeResult where
  score : Option ℚ
  passed : Bool
  reasoning : String := ""
deriving Repr

/-- The injected LLM judge (`src/evaluation/llm_judge.py` interface). -/
structure LLMJudge where
  judge_quality : String → String → String → JudgeResult
  judge_criteria : String → String → String → JudgeResult

/-- Result of one Azure evaluator call (dict with `score` and `detail`). -/
structure EvalRes where
  score : ℚ
  detail : String := ""
deriving Repr

/-- The injected Azure evaluators
(`src/evaluation/azure_evaluators.py` interface). -/
structure AzureEvaluators where
  evaluate_relevance : String → String → EvalRes
  evaluate_coherence : String → String → EvalRes
  evaluate_groundedness : String → String → String → EvalRes
  evaluate_fluency : String → EvalRes

/-- `_format_step(assertion, args)` from `steps.py`. -/
def formatStep (assertion : String) (args : List StepArg) : String :=
  match args with
  | [] => assertion
  | _ => assertion ++ " " ++ String.intercalate ", " (args.map valAsStr)

/-- `_infer_metric(pattern)` from `steps.py`. -/
def inferMetric (pattern : String) : String :=
  if strContains pattern "relevance" || strContains pattern "relevant" then "relevance"
  else if strContains pattern "coherence" || strContains pattern "coherent" then "quality"
  else if strContains pattern "groundedness" || strContains pattern "grounded" then "groundedness"
  else if strContains pattern "fluency" || strContains pattern "fluent" then "quality"
  else "quality"

/-- The score a judge-backed step reports:
`result.get("score", 1.0 if result.get("passed") else 0.0)`. -/
def judgeScore (r : JudgeResult) : ℚ :=
  match r.score with
  | some sc => sc
  | none => if r.passed then 1 else 0

/-! ### Registered step definitions (`src/evaluation/steps.py`)

One Lean function per decorated step function, in registration order.
Each has the uniform signature
`assertion → args → output → llm_judge → azure_evaluators → StepResult`.
The judge-backed functions are only reachable with the judge present
(`match_step` returns a skip result otherwise); on an absent judge they
return that same skip result so that the functions stay total. -/

/-- The skip result returned when a step needs the LLM judge and none is
configured. -/
def skipLLMResult (assertion : String) (args : List StepArg) : StepResult :=
  { step_text := formatStep assertion args, score := 1, metric := "quality",
    detail := "Skipped (no LLM judge configured)", is_llm_judged := true }

/-- The skip result returned when a step needs the Azure evaluators and
none are configured. -/
def skipAzureResult (assertion : String) (args : List StepArg)
    (pattern : String) : StepResult :=
  { step_text := formatStep assertion args, score := 1,
    metric := inferMetric pattern,
    detail := "Skipped (Azure evaluators not configured)",
    is_llm_judged := true }

/-- `_answer_should_mention`. -/
def answerShouldMentionFn (_assertion : String) (args : List StepArg)
    (output : ResearchOutput) (_lj : Option LLMJudge)
    (_az : Option AzureEvaluators) : StepResult :=
  let phrase := headStr args
  let found := strContains (pyLower output.answer) (pyLower phrase)
  { step_text := "the answer should mention \"" ++ phrase ++ "\"",
    score := if found then 1 else 0,
    metric := "relevance",
    detail := if found then ""
              else sglQuote ++ phrase ++ sglQuote ++ " not found in answer" }

/-- `_answer_should_not_mention`. -/
def answerShouldNotMentionFn (_assertion : String) (args : List StepArg)
    (output : ResearchOutput) (_lj : Option LLMJudge)
    (_az : Option AzureEvaluators) : StepResult :=
  let phrase := headStr args
  let found := strContains (pyLower output.answer) (pyLower phrase)
  { step_text := "the answer should not mention \"" ++ phrase ++ "\"",
    score := if found then 0 else 1,
    metric := "relevance",
    detail := if found then sglQuote ++ phrase ++ sglQuote ++ " was found in answer"
              else "" }

/-- `_min_citations` ("there should be at least"). -/
def minCitationsFn (assertion : String) (args : List StepArg)
    (output : ResearchOutput) (_lj : Option LLMJudge)
    (_az : Option AzureEvaluators) : StepResult :=
  let n : ℤ := match args with
    | [] => (extractNumber assertion : ℤ)
    | a :: _ => valAsInt a
  let what := if strContains (pyLower assertion) "citation" then "citations" else "items"
  let actual := output.citations_count
  let score : ℚ := if 0 < n then min ((actual : ℚ) / (n : ℚ)) 1 else 1
  { step_text := "there should be at least " ++ toString n ++ " " ++ what,
    score := score,
    metric := "groundedness",
    detail := toString actual ++ "/" ++ toString n }

/-- `_min_length` ("the answer should be at least"). -/
def minLengthFn (assertion : String) (args : List StepArg)
    (output : ResearchOutput) (_lj : Option LLMJudge)
    (_az : Option AzureEvaluators) : StepResult :=
  let n : ℤ := match args with
    | [] => (extractNumber assertion : ℤ)
    | a :: _ => valAsInt a
  let actual := output.answer.length
  let score : ℚ := if 0 < n then min ((actual : ℚ) / (n : ℚ)) 1 else 1
  { step_text := "the answer should be at least " ++ toString n ++ " characters",
    score := score,
    metric := "relevance",
    detail := toString actual ++ "/" ++ toString n ++ " chars" }

/-- `_sources_include` ("sources should include"). -/
def sourcesIncludeFn (_assertion : String) (args : List StepArg)
    (output : ResearchOutput) (_lj : Option LLMJudge)
    (_az : Option AzureEvaluators) : StepResult :=
  let source := headStr args
  let sourceNorm : String :=
    ⟨((pyLower source).data.map (fun c => if c = ' ' then '_' else c)).filter
      (fun c => c ≠ '.')⟩
  let found := output.sources_used.any (fun s =>
    strContains (pyLower s) (pyLower source) || strContains (pyLower s) sourceNorm)
  { step_text := "sources should include \"" ++ source ++ "\"",
    score := if found then 1 else 0,
    metric := "coverage",
    detail := if found then ""
              else "sources used: " ++ toString output.sources_used }

/-- `_min_documents` ("documents retrieved should be at least"). -/
def minDocumentsFn (assertion : String) (args : List StepArg)
    (output : ResearchOutput) (_lj : Option LLMJudge)
    (_az : Option AzureEvaluators) : StepResult :=
  let n : ℤ := match args with
    | [] => (extractNumber assertion : ℤ)
    | a :: _ => valAsInt a
  let actual := output.documents_retrieved
  let score : ℚ := if 0 < n then min ((actual : ℚ) / (n : ℚ)) 1 else 1
  { step_text := "documents retrieved should be at least " ++ toString n,
    score := score,
    metric := "coverage",
    detail := toString actual ++ "/" ++ toString n }

/-- `_max_time` ("completion time should be under"). -/
def maxTimeFn (assertion : String) (args : List StepArg)
    (output : ResearchOutput) (_lj : Option LLMJudge)
    (_az : Option AzureEvaluators) : StepResult :=
  let threshold : ℚ := match args with
    | [] => (extractNumber assertion : ℚ)
    | a :: _ => valAsRat a
  let actual := output.completion_time
  let score : ℚ :=
    if actual ≥ threshold * 2 then 0
    else max 0 (1 - actual / (threshold * 2))
  { step_text := "completion time should be under " ++ toString threshold ++ "s",
    score := pyRound2 score,
    metric := "latency",
    detail := toString actual ++ "s (threshold: " ++ toString threshold ++ "s)" }

/-- `_answer_quality` ("the answer should be", LLM-judged). -/
def answerQualityFn (assertion : String) (args : List StepArg)
    (output : ResearchOutput) (lj : Option LLMJudge)
    (_az : Option AzureEvaluators) : StepResult :=
  match lj with
  | none => skipLLMResult assertion args
  | some judge =>
      let quality := headStr args
      let result := judge.judge_quality output.answer output.query quality
      { step_text := "the answer should be \"" ++ quality ++ "\"",
        score := judgeScore result,
        metric := "quality",
        detail := result.reasoning,
        is_llm_judged := true }

/-- `_answer_should` ("the answer should", LLM-judged). -/
def answerShouldFn (assertion : String) (args : List StepArg)
    (output : ResearchOutput) (lj : Option LLMJudge)
    (_az : Option AzureEvaluators) : StepResult :=
  match lj with
  | none => skipLLMResult assertion args
  | some judge =>
      let criteria := match args with
        | [] => assertion.replace "the answer should " ""
        | a :: _ => valAsStr a
      let result := judge.judge_criteria output.answer output.query criteria
      { step_text := "the answer should " ++ criteria,
        score := judgeScore result,
        metric := "quality",
        detail := result.reasoning,
        is_llm_judged := true }

/-- `_azure_relevance` ("azure relevance score"). -/
def azureRelevanceFn (assertion : String) (args : List StepArg)
    (output : ResearchOutput) (_lj : Option LLMJudge)
    (az : Option AzureEvaluators) : StepResult :=
  match az with
  | none => skipAzureResult assertion args "azure relevance score"
  | some evals =>
      let result := evals.evaluate_relevance output.query output.answer
      { step_text := "azure relevance score", score := result.score,
        metric := "relevance", detail := result.detail, is_llm_judged := true }

/-- `_azure_coherence` ("azure coherence score"). -/
def azureCoherenceFn (assertion : String) (args : List StepArg)
    (output : ResearchOutput) (_lj : Option LLMJudge)
    (az : Option AzureEvaluators) : StepResult :=
  match az with
  | none => skipAzureResult assertion args "azure coherence score"
  | some evals =>
      let result := evals.evaluate_coherence output.query output.answer
      { step_text := "azure coherence score", score := result.score,
        metric := "quality", detail := result.detail, is_llm_judged := true }

/-- `_azure_groundedness` ("azure groundedness score"). -/
def azureGroundednessFn (assertion : String) (args : List StepArg)
    (output : ResearchOutput) (_lj : Option LLMJudge)
    (az : Option AzureEvaluators) : StepResult :=
  match az with
  | none => skipAzureResult assertion args "azure groundedness score"
  | some evals =>
      let context := match args with
        | [] => output.answer
        | a :: _ => valAsStr a
      let result := evals.evaluate_groundedness output.query output.answer context
      { step_text := "azure groundedness score", score := result.score,
        metric := "groundedness", detail := result.detail, is_llm_judged := true }

/-- `_azure_fluency` ("azure fluency score"). -/
def azureFluencyFn (assertion : String) (args : List StepArg)
    (output : ResearchOutput) (_lj : Option LLMJudge)
    (az : Option AzureEvaluators) : StepResult :=
  match az with
  | none => skipAzureResult assertion args "azure fluency score"
  | some evals =>
      let result := evals.evaluate_fluency output.answer
      { step_text := "azure fluency score", score := result.score,
        metric := "quality", detail := result.detail, is_llm_judged := true }

/-! ### The step registry and `match_step` (`src/evaluation/steps.py`) -/

/-- One entry of `_STEP_DEFS`: pattern, step function, and the
`is_llm` / `is_azure_eval` flags. -/
structure StepDef where
  pattern : String
  run : String → List StepArg → ResearchOutput → Option LLMJudge →
        Option AzureEvaluators → StepResult
  is_llm : Bool
  is_azure_eval : Bool

/-- `_STEP_DEFS` in registration order (module load order of the
`@step` decorators). -/
def stepDefs : List StepDef :=
  [ ⟨"the answer should mention", answerShouldMentionFn, false, false⟩,
    ⟨"the answer should not mention", answerShouldNotMentionFn, false, false⟩,
    ⟨"there should be at least", minCitationsFn, false, false⟩,
    ⟨"the answer should be at least", minLengthFn, false, false⟩,
    ⟨"sources should include", sourcesIncludeFn, false, false⟩,
    ⟨"documents retrieved should be at least", minDocumentsFn, false, false⟩,
    ⟨"completion time should be under", maxTimeFn, false, false⟩,
    ⟨"the answer should be", answerQualityFn, true, false⟩,
    ⟨"the answer should", answerShouldFn, true, false⟩,
    ⟨"azure relevance score", azureRelevanceFn, false, true⟩,
    ⟨"azure coherence score", azureCoherenceFn, false, true⟩,
    ⟨"azure groundedness score", azureGroundednessFn, false, true⟩,
    ⟨"azure fluency score", azureFluencyFn, false, true⟩ ]

/-- The fail-closed result `match_step` returns when no pattern matches. -/
def noMatchResult (assertion : String) (args : List StepArg) : StepResult :=
  { step_text := formatStep assertion args, score := 0,
    detail := "No step definition found for: " ++ assertion }

/-- `match_step(assertion, args, output, llm_judge, azure_evaluators)`:
dispatch on the first registered pattern that is a case-insensitive
prefix of the assertion (the `for` loop over `_STEP_DEFS` returns at the
first match). -/
def matchStep (assertion : String) (args : List StepArg)
    (output : ResearchOutput) (llm_judge : Option LLMJudge)
    (azure_evaluators : Option AzureEvaluators) : StepResult :=
  match stepDefs.find?
      (fun d => strStartsWith (pyLower assertion) (pyLower d.pattern)) with
  | some d =>
      if d.is_llm && llm_judge.isNone then skipLLMResult assertion args
      else if d.is_azure_eval && azure_evaluators.isNone then
        skipAzureResult assertion args d.pattern
      else d.run assertion args output llm_judge azure_evaluators
  | none => noMatchResult assertion args

/-! ### Scenario results and the eval runner
(`src/evaluation/dsl.py`, `src/evaluation/runner.py`) -/

/-- A registered scenario (`ScenarioBuilder`): `given("a query", v)` stores
the query, `when` is a no-op, each `then` appends an assertion. -/
structure ScenarioBuilderPy where
  scenario_id : String
  name : String
  category : String
  query : Option String
  thens : List (String × List StepArg)

/-- `ScenarioResult` from `dsl.py` (the fields the runner fills). -/
structure ScenarioResultPy where
  scenario_id : String
  scenario_name : String
  category : String
  architecture : String
  steps : List StepResult := []
  completion_time : ℚ := 0
  documents_retrieved : ℕ := 0
  citations_count : ℕ := 0
  sources_used : List String := []
  answer : String := ""
  error : Option String := none

/-- `ScenarioResult.overall_score`: mean step score, `0.0` on no steps. -/
def ScenarioResultPy.overall_score (r : ScenarioResultPy) : ℚ :=
  if r.steps.isEmpty then 0
  else (r.steps.map (·.score)).sum / r.steps.length

/-- `ScenarioResult.passed`: overall score at least `0.7`. -/
def ScenarioResultPy.scenarioPassed (r : ScenarioResultPy) : Bool :=
  r.overall_score ≥ 7 / 10

/-- The result of `ResearchResult` fields the runner reads
(`src/architectures/common.py`). -/
structure ResearchResultPy where
  query : String
  answer : String
  sources_checked : List String
  documents_retrieved : ℕ
  documents_used : ℕ
  citations : List Citation
  time_elapsed : ℚ

/-- `EvalRunner.run_scenario(scenario, architecture, architecture_name)`.
The research call is modelled by its outcome: `.error (e, elapsed)` when
`architecture.research` raised (with the message and the elapsed time),
`.ok (result, elapsed)` on success. -/
def runScenario (scenario : ScenarioBuilderPy) (architecture_name : String)
    (research : Except (String × ℚ) (ResearchResultPy × ℚ))
    (llm_judge : Option LLMJudge) (azure_evaluators : Option AzureEvaluators) :
    ScenarioResultPy :=
  match scenario.query with
  | none =>
      { scenario_id := scenario.scenario_id, scenario_name := scenario.name,
        category := scenario.category, architecture := architecture_name,
        error := some "No query defined in scenario" }
  | some query =>
      match research with
      | .error (e, elapsed) =>
          { scenario_id := scenario.scenario_id, scenario_name := scenario.name,
            category := scenario.category, architecture := architecture_name,
            completion_time := elapsed, error := some e }
      | .ok (result, elapsed) =>
          let citations_count := result.citations.length
          let sources_used := result.sources_checked
          let output : ResearchOutput :=
            { query := query, answer := result.answer,
              completion_time := elapsed,
              documents_retrieved := result.documents_retrieved,
              citations_count := citations_count,
              sources_used := sources_used }
          let step_results := scenario.thens.map
            (fun t => matchStep t.1 t.2 output llm_judge azure_evaluators)
          { scenario_id := scenario.scenario_id, scenario_name := scenario.name,
            category := scenario.category, architecture := architecture_name,
            steps := step_results, completion_time := elapsed,
            documents_retrieved := output.documents_retrieved,
            citations_count := output.citations_count,
            sources_used := output.sources_used,
            answer := output.answer }

/-! ### Critic feedback loops (`src/architectures/*.py`)

Each orchestration pattern runs a bounded `for` loop: produce an answer
(or round findings), ask the Critic, `json.loads` the reply, and break on
the pattern's stop condition; a reply that fails to parse (or whose
`quality_score` cannot be converted with `float`) breaks as well.  The
Critic's replies are modelled per round: `.unparseable` covers both the
`json.JSONDecodeError` and the `ValueError` branch of the shared
`except`, `.parsed` carries the optional `quality_score` and
`is_sufficient` fields of the decoded JSON (absent fields are `none`;
each orchestrator applies its own `dict.get` default). -/

/-- The Critic's reply for one round, after `json.loads`. -/
inductive CriticReply where
  | unparseable : CriticReply
  | parsed (quality_score : Option ℚ) (is_sufficient : Option Bool) : CriticReply
deriving Repr, DecidableEq

/-- Exit condition of the `researcher_critic.py` loop at one round:
`break` on an unparseable critique, else on
`float(eval_data.get("quality_score", 0)) >= 0.7 or
eval_data.get("is_sufficient", False)`. -/
def rcStop : CriticReply → Bool
  | .unparseable => true
  | .parsed sc suff => decide ((sc.getD 0) ≥ 7 / 10) || suff.getD false

/-- Exit condition of the `supervisor_worker.py` loop at one round:
`break` on an unparseable critique, else on
`eval_data.get("is_sufficient", True) or
float(eval_data.get("quality_score", 1.0)) >= 0.7`. -/
def swStop : CriticReply → Bool
  | .unparseable => true
  | .parsed sc suff => suff.getD true || decide ((sc.getD 1) ≥ 7 / 10)

/-- Exit condition of the `plan_and_execute.py` loop at one attempt:
`break` on an unparseable verification, else on
`verify_data.get("is_sufficient", True) or
float(verify_data.get("quality_score", 1.0)) >= 0.7`. -/
def peStop : CriticReply → Bool
  | .unparseable => true
  | .parsed sc suff => suff.getD true || decide ((sc.getD 1) ≥ 7 / 10)

/-- The shared `for`-loop shape of the three critic-gated patterns:
starting at round index `i` with `fuel` rounds still allowed and `a` the
answer kept from earlier rounds, run one round (obtaining `ans i`), exit
with it when `stop i`, else continue; when fuel runs out the loop falls
through with the latest answer.  Returns the final answer and the total
number of rounds executed. -/
def feedbackLoop (stop : ℕ → Bool) (ans : ℕ → String) :
    ℕ → ℕ → String → String × ℕ
  | i, 0, a => (a, i)
  | i, fuel + 1, _ => if stop i then (ans i, i + 1)
                      else feedbackLoop stop ans (i + 1) fuel (ans i)

/-- The Researcher-Critic loop of `ResearcherCriticOrchestrator.research`
(`MAX_ITERATIONS = 3`): `answers i` is the Researcher's reply at round
`i`, `crits i` the Critic's decoded reply.  Returns the accepted answer
and the number of rounds (Researcher invocations) executed. -/
def rcResearchLoop (answers : ℕ → String) (crits : ℕ → CriticReply) :
    String × ℕ :=
  feedbackLoop (fun i => rcStop (crits i)) answers 0 3 ""

/-- Rounds executed by the `SupervisorWorkerOrchestrator.research` loop
(`MAX_ROUNDS = 3`): `findings i` is the concatenated worker output of
round `i`. -/
def swRoundsRun (findings : ℕ → String) (crits : ℕ → CriticReply) : ℕ :=
  (feedbackLoop (fun i => swStop (crits i)) findings 0 3 "").2

/-- Attempts executed by the `PlanAndExecuteOrchestrator.research` loop
(`range(MAX_REPLANS + 1)` with `MAX_REPLANS = 2`): `outputs i` is the
Researcher's output of attempt `i`. -/
def peAttemptsRun (outputs : ℕ → String) (crits : ℕ → CriticReply) : ℕ :=
  (feedbackLoop (fun i => peStop (crits i)) outputs 0 3 "").2

/-- A concrete research output used to instantiate universally quantified
theorems on explicit inputs. -/
def sampleOutput : ResearchOutput :=
  { query := "EPA regulations on clean water standards",
    answer := "Water standards [1][2][3]",
    completion_time := 10,
    documents_retrieved := 4,
    citations_count := 3,
    sources_used := ["Federal Register"] }

/-! ## Helper lemmas -/

theorem startsWithL_append_of_true {p a : List Char} (b : List Char)
    (h : startsWithL a p = true) : startsWithL (a ++ b) p = true := by
  induction p generalizing a with
  | nil => cases a <;> simp [startsWithL]
  | cons x xs ih =>
      cases a with
      | nil => simp [startsWithL] at h
      | cons c cs =>
          simp only [List.cons_append, startsWithL, Bool.and_eq_true] at h ⊢
          exact ⟨h.1, ih h.2⟩

theorem startsWithL_append_of_le {p a : List Char} (b : List Char)
    (hlen : p.length ≤ a.length) :
    startsWithL (a ++ b) p = startsWithL a p := by
  induction p generalizing a with
  | nil => cases a <;> simp [startsWithL]
  | cons x xs ih =>
      cases a with
      | nil => simp at hlen
      | cons c cs =>
          simp only [List.cons_append, List.append_eq, startsWithL]
          rw [ih (by simpa using hlen)]

theorem string_data_append (s t : String) : (s ++ t).data = s.data ++ t.data := rfl

theorem pyLower_data (s : String) : (pyLower s).data = s.data.map Char.toLower := rfl

theorem strStartsWith_lower_append (lit suffix pat : String)
    (hlen : pat.length ≤ lit.length) :
    strStartsWith (pyLower (lit ++ suffix)) (pyLower pat) =
    strStartsWith (pyLower lit) (pyLower pat) := by
  unfold strStartsWith
  rw [pyLower_data, pyLower_data, pyLower_data, string_data_append,
    List.map_append]
  apply startsWithL_append_of_le
  simp only [List.length_map]
  exact hlen

theorem strStartsWith_lower_append_of_true (lit suffix pat : String)
    (h : strStartsWith (pyLower lit) (pyLower pat) = true) :
    strStartsWith (pyLower (lit ++ suffix)) (pyLower pat) = true := by
  unfold strStartsWith at h ⊢
  rw [pyLower_data, pyLower_data, string_data_append, List.map_append]
  rw [pyLower_data, pyLower_data] at h
  exact startsWithL_append_of_true _ h

theorem roundHalfEven_intCast (k : ℤ) : roundHalfEven (k : ℚ) = k := by
  unfold roundHalfEven
  rw [Int.fract_intCast, Int.floor_intCast]
  norm_num

theorem roundHalfEven_mono {x y : ℚ} (h : x ≤ y) :
    roundHalfEven x ≤ roundHalfEven y := by
  have hf : ⌊x⌋ ≤ ⌊y⌋ := Int.floor_mono h
  rcases lt_or_eq_of_le hf with hlt | heq
  · unfold roundHalfEven
    split_ifs <;> omega
  · have hfr : Int.fract x ≤ Int.fract y := by
      unfold Int.fract
      rw [heq]
      linarith
    unfold roundHalfEven
    split_ifs <;> first | omega | linarith

theorem pyRound2_mono {x y : ℚ} (h : x ≤ y) : pyRound2 x ≤ pyRound2 y := by
  unfold pyRound2
  have h1 : roundHalfEven (100 * x) ≤ roundHalfEven (100 * y) :=
    roundHalfEven_mono (by linarith)
  have h2 : ((roundHalfEven (100 * x)) : ℚ) ≤ ((roundHalfEven (100 * y)) : ℚ) := by
    exact_mod_cast h1
  exact div_le_div_of_nonneg_right h2 (by norm_num)

theorem pyRound2_zero : pyRound2 0 = 0 := by
  unfold pyRound2
  norm_num
  have : roundHalfEven ((0 : ℤ) : ℚ) = 0 := roundHalfEven_intCast 0
  simpa using this

theorem pyRound2_one : pyRound2 1 = 1 := by
  unfold pyRound2
  have : roundHalfEven ((100 : ℤ) : ℚ) = 100 := roundHalfEven_intCast 100
  norm_num at this ⊢
  rw [this]
  norm_num

theorem pyRound2_half : pyRound2 (1 / 2) = 1 / 2 := by
  unfold pyRound2
  have h50 : (100 : ℚ) * (1 / 2) = ((50 : ℤ) : ℚ) := by norm_num
  rw [h50, roundHalfEven_intCast]
  norm_num

theorem feedbackLoop_count_ge (stop : ℕ → Bool) (ans : ℕ → String) :
    ∀ (fuel i : ℕ) (a : String), i ≤ (feedbackLoop stop ans i fuel a).2 := by
  intro fuel
  induction fuel with
  | zero => intro i a; simp [feedbackLoop]
  | succ f ih =>
      intro i a
      simp only [feedbackLoop]
      split
      · simp
      · exact le_trans (Nat.le_succ i) (ih (i + 1) (ans i))

theorem feedbackLoop_count_le (stop : ℕ → Bool) (ans : ℕ → String) :
    ∀ (fuel i : ℕ) (a : String), (feedbackLoop stop ans i fuel a).2 ≤ i + fuel := by
  intro fuel
  induction fuel with
  | zero => intro i a; simp [feedbackLoop]
  | succ f ih =>
      intro i a
      simp only [feedbackLoop]
      split
      · omega
      · have := ih (i + 1) (ans i)
        omega

theorem feedbackLoop_count_pos (stop : ℕ → Bool) (ans : ℕ → String)
    (fuel i : ℕ) (a : String) (hf : 0 < fuel) :
    i + 1 ≤ (feedbackLoop stop ans i fuel a).2 := by
  cases fuel with
  | zero => omega
  | succ f =>
      simp only [feedbackLoop]
      split
      · simp
      · exact feedbackLoop_count_ge stop ans f (i + 1) (ans i)

theorem feedbackLoop_no_stop_before (stop : ℕ → Bool) (ans : ℕ → String) :
    ∀ (fuel i : ℕ) (a : String) (j : ℕ), i ≤ j →
      j + 1 < (feedbackLoop stop ans i fuel a).2 → stop j = false := by
  intro fuel
  induction fuel with
  | zero =>
      intro i a j hij hlt
      simp [feedbackLoop] at hlt
      omega
  | succ f ih =>
      intro i a j hij hlt
      simp only [feedbackLoop] at hlt
      by_cases hs : stop i
      · rw [if_pos hs] at hlt
        omega
      · rw [if_neg hs] at hlt
        rcases Nat.eq_or_lt_of_le hij with heq | hgt
        · subst heq
          simpa using hs
        · exact ih (i + 1) (ans i) j hgt hlt

theorem feedbackLoop_early_stop (stop : ℕ → Bool) (ans : ℕ → String) :
    ∀ (fuel i : ℕ) (a : String),
      (feedbackLoop stop ans i fuel a).2 < i + fuel →
      stop ((feedbackLoop stop ans i fuel a).2 - 1) = true := by
  intro fuel
  induction fuel with
  | zero =>
      intro i a hlt
      simp [feedbackLoop] at hlt
  | succ f ih =>
      intro i a hlt
      simp only [feedbackLoop] at hlt ⊢
      by_cases hs : stop i
      · rw [if_pos hs]
        simpa using hs
      · rw [if_neg hs] at hlt ⊢
        exact ih (i + 1) (ans i) (by omega)

theorem feedbackLoop_stop_at (stop : ℕ → Bool) (ans : ℕ → String) :
    ∀ (fuel i : ℕ) (a : String) (j : ℕ), i ≤ j → j < i + fuel →
      (∀ k, i ≤ k → k < j → stop k = false) → stop j = true →
      feedbackLoop stop ans i fuel a = (ans j, j + 1) := by
  intro fuel
  induction fuel with
  | zero =>
      intro i a j hij hlt
      omega
  | succ f ih =>
      intro i a j hij hlt hpre hstop
      simp only [feedbackLoop]
      rcases Nat.eq_or_lt_of_le hij with heq | hgt
      · subst heq
        rw [if_pos hstop]
      · rw [if_neg (by simpa using hpre i le_rfl hgt)]
        exact ih (i + 1) (ans i) j hgt (by omega)
          (fun k hk1 hk2 => hpre k (by omega) hk2) hstop

theorem feedbackLoop_continue (stop : ℕ → Bool) (ans : ℕ → String) :
    ∀ (fuel i : ℕ) (a : String) (j : ℕ), i ≤ j → j + 1 < i + fuel →
      (∀ k, i ≤ k → k ≤ j → stop k = false) →
      j + 2 ≤ (feedbackLoop stop ans i fuel a).2 := by
  intro fuel
  induction fuel with
  | zero =>
      intro i a j hij hlt
      omega
  | succ f ih =>
      intro i a j hij hlt hpre
      simp only [feedbackLoop]
      rw [if_neg (by simpa using hpre i le_rfl hij)]
      rcases Nat.eq_or_lt_of_le hij with heq | hgt
      · subst heq
        have := feedbackLoop_count_pos stop ans f (i + 1) (ans i) (by omega)
        omega
      · exact ih (i + 1) (ans i) j hgt (by omega)
          (fun k hk1 hk2 => hpre k (by omega) hk2)

theorem feedbackLoop_final_ans (stop : ℕ → Bool) (ans : ℕ → String) :
    ∀ (fuel i : ℕ) (a : String), 0 < fuel →
      (feedbackLoop stop ans i fuel a).1 =
        ans ((feedbackLoop stop ans i fuel a).2 - 1) := by
  intro fuel
  induction fuel with
  | zero => intro i a h; omega
  | succ f ih =>
      intro i a _
      simp only [feedbackLoop]
      by_cases hs : stop i
      · rw [if_pos hs]
        simp
      · rw [if_neg hs]
        cases f with
        | zero => simp [feedbackLoop]
        | succ f' => exact ih (i + 1) (ans i) (by omega)

theorem toolLoop_count_le (next : ℕ → Resp) :
    ∀ (fuel i : ℕ) (r : Resp), (toolLoop next i fuel r).2 ≤ i + fuel := by
  intro fuel
  induction fuel with
  | zero => intro i r; simp [toolLoop]
  | succ f ih =>
      intro i r
      simp only [toolLoop]
      split
      · omega
      · have := ih (i + 1) (next i)
        omega

theorem overall_score_of_no_steps (r : ScenarioResultPy) (h : r.steps = []) :
    r.overall_score = 0 ∧ r.scenarioPassed = false := by
  unfold ScenarioResultPy.scenarioPassed ScenarioResultPy.overall_score
  rw [h]
  norm_num

theorem threshold_score_core (a : ℕ) (t : ℤ) (ht : 0 < t) :
    0 ≤ min ((a : ℚ) / (t : ℚ)) 1 ∧ min ((a : ℚ) / (t : ℚ)) 1 ≤ 1 ∧
    (min ((a : ℚ) / (t : ℚ)) 1 = 1 ↔ t ≤ (a : ℤ)) := by
  have ht' : (0 : ℚ) < (t : ℚ) := by exact_mod_cast ht
  refine ⟨le_min (div_nonneg (by positivity) ht'.le) zero_le_one,
    min_le_right _ _, ?_⟩
  rw [min_eq_right_iff, one_le_div ht']
  constructor
  · intro hle
    exact_mod_cast hle
  · intro hle
    exact_mod_cast hle

/-! ## Claim theorems -/

/-- C9: `ToolCallStats.reset` returns the pre-reset pair
`(documents_retrieved, sources_called)` and clears both counters, so after
any sequence of `record` calls a second consecutive `reset` yields
`(0, [])`. -/
theorem tool_call_stats_reset_contract (calls : List (String × Option Json)) :
    ((calls.foldl (fun st c => st.record c.1 c.2) initialStats).reset).1 =
      ((calls.foldl (fun st c => st.record c.1 c.2) initialStats).documents_retrieved,
       (calls.foldl (fun st c => st.record c.1 c.2) initialStats).sources_called)
    ∧ ((calls.foldl (fun st c => st.record c.1 c.2) initialStats).reset).2 = initialStats
    ∧ ((((calls.foldl (fun st c => st.record c.1 c.2) initialStats).reset).2).reset).1 =
        (0, ([] : List String)) :=
  ⟨rfl, rfl, rfl⟩

/-- C5: every `ScenarioResult` produced by `EvalRunner.run_scenario` with a
non-null error carries zero steps, has overall score `0.0`, and does not
pass — both for a missing query and for a research run that raised. -/
theorem scenario_error_no_steps (scenario : ScenarioBuilderPy) (arch : String)
    (research : Except (String × ℚ) (ResearchResultPy × ℚ))
    (lj : Option LLMJudge) (az : Option AzureEvaluators)
    (h : (runScenario scenario arch research lj az).error ≠ none) :
    (runScenario scenario arch research lj az).steps = []
    ∧ (runScenario scenario arch research lj az).overall_score = 0
    ∧ (runScenario scenario arch research lj az).scenarioPassed = false := by
  rcases scenario with ⟨sid, nm, cat, q, thens⟩
  cases q with
  | none =>
      exact ⟨rfl, (overall_score_of_no_steps _ rfl).1,
        (overall_score_of_no_steps _ rfl).2⟩
  | some query =>
      cases research with
      | error pe =>
          rcases pe with ⟨e, elapsed⟩
          exact ⟨rfl, (overall_score_of_no_steps _ rfl).1,
            (overall_score_of_no_steps _ rfl).2⟩
      | ok pr =>
          rcases pr with ⟨result, elapsed⟩
          exact absurd rfl h

/-- Witness for C5 at a concrete erroring scenario run. -/
theorem scenario_error_no_steps_witness :
    (runScenario ⟨"s1", "Sample", "general", some "q", []⟩ "single_agent"
      (.error ("research raised", 1)) none none).steps = []
    ∧ (runScenario ⟨"s1", "Sample", "general", some "q", []⟩ "single_agent"
      (.error ("research raised", 1)) none none).scenarioPassed = false := by
  have h := scenario_error_no_steps ⟨"s1", "Sample", "general", some "q", []⟩
    "single_agent" (.error ("research raised", 1)) none none (by simp [runScenario])
  exact ⟨h.1, h.2.2⟩

/-- C4: within one agent invocation the tool-call dispatch loop executes at
most 10 rounds, and `_execute_tool_calls` converts every raising tool call
into a structured error-object output (and every successful one into its
output string), never dropping a call and never propagating the
exception. -/
theorem run_agent_tool_loop_contract (initResp : Resp) (next : ℕ → Resp)
    (exec : FnCall → Except String String) (calls : List FnCall) :
    (runAgentLoop initResp next).2 ≤ 10
    ∧ (executeToolCalls exec calls).length = calls.length
    ∧ (∀ fc e, fc ∈ calls → exec fc = .error e →
        (⟨fc.call_id, .errJson e⟩ : FnOutput) ∈ executeToolCalls exec calls)
    ∧ (∀ fc s, fc ∈ calls → exec fc = .ok s →
        (⟨fc.call_id, .success s⟩ : FnOutput) ∈ executeToolCalls exec calls) := by
  refine ⟨?_, ?_, ?_, ?_⟩
  · have := toolLoop_count_le next 10 0 initResp
    simpa [runAgentLoop] using this
  · simp [executeToolCalls]
  · intro fc e hm he
    have := List.mem_map_of_mem
      (fun fc => match exec fc with
        | .ok s => (⟨fc.call_id, .success s⟩ : FnOutput)
        | .error e => ⟨fc.call_id, .errJson e⟩) hm
    simpa [executeToolCalls, he] using this
  · intro fc s hm hs
    have := List.mem_map_of_mem
      (fun fc => match exec fc with
        | .ok s => (⟨fc.call_id, .success s⟩ : FnOutput)
        | .error e => ⟨fc.call_id, .errJson e⟩) hm
    simpa [executeToolCalls, hs] using this

/-- Witness for C4 at a concrete response sequence and a raising tool. -/
theorem run_agent_tool_loop_contract_witness :
    (runAgentLoop ⟨[⟨"c0", "search_congress", ""⟩], ""⟩
      (fun _ => ⟨[], "final text"⟩)).2 ≤ 10
    ∧ (⟨"c1", .errJson "boom"⟩ : FnOutput) ∈
        executeToolCalls (fun _ => .error "boom") [⟨"c1", "search_congress", ""⟩] := by
  constructor
  · exact (run_agent_tool_loop_contract ⟨[⟨"c0", "search_congress", ""⟩], ""⟩
      (fun _ => ⟨[], "final text"⟩) (fun _ => .error "boom") []).1
  · exact (run_agent_tool_loop_contract ⟨[⟨"c0", "search_congress", ""⟩], ""⟩
      (fun _ => ⟨[], "final text"⟩) (fun _ => .error "boom")
      [⟨"c1", "search_congress", ""⟩]).2.2.1 ⟨"c1", "search_congress", ""⟩
      "boom" (by simp) rfl

/-- C1: the three threshold-count steps (minimum citations, minimum answer
length, minimum documents retrieved) score `min(actual/target, 1.0)` for
a positive target — a value in `[0, 1]` that equals `1.0` exactly when the
actual count reaches the target — and score `1.0` for a target `≤ 0`. -/
theorem threshold_count_steps_contract (assertion : String)
    (out : ResearchOutput) (t : ℤ) (lj : Option LLMJudge)
    (az : Option AzureEvaluators) :
    (0 < t →
      ((minCitationsFn assertion [.intArg t] out lj az).score =
          min ((out.citations_count : ℚ) / (t : ℚ)) 1
        ∧ 0 ≤ (minCitationsFn assertion [.intArg t] out lj az).score
        ∧ (minCitationsFn assertion [.intArg t] out lj az).score ≤ 1
        ∧ ((minCitationsFn assertion [.intArg t] out lj az).score = 1 ↔
            t ≤ (out.citations_count : ℤ)))
      ∧ ((minLengthFn assertion [.intArg t] out lj az).score =
          min ((out.answer.length : ℚ) / (t : ℚ)) 1
        ∧ 0 ≤ (minLengthFn assertion [.intArg t] out lj az).score
        ∧ (minLengthFn assertion [.intArg t] out lj az).score ≤ 1
        ∧ ((minLengthFn assertion [.intArg t] out lj az).score = 1 ↔
            t ≤ (out.answer.length : ℤ)))
      ∧ ((minDocumentsFn assertion [.intArg t] out lj az).score =
          min ((out.documents_retrieved : ℚ) / (t : ℚ)) 1
        ∧ 0 ≤ (minDocumentsFn assertion [.intArg t] out lj az).score
        ∧ (minDocumentsFn assertion [.intArg t] out lj az).score ≤ 1
        ∧ ((minDocumentsFn assertion [.intArg t] out lj az).score = 1 ↔
            t ≤ (out.documents_retrieved : ℤ))))
    ∧ (t ≤ 0 →
      (minCitationsFn assertion [.intArg t] out lj az).score = 1
      ∧ (minLengthFn assertion [.intArg t] out lj az).score = 1
      ∧ (minDocumentsFn assertion [.intArg t] out lj az).score = 1) := by
  have hc : (minCitationsFn assertion [.intArg t] out lj az).score =
      if 0 < t then min ((out.citations_count : ℚ) / (t : ℚ)) 1 else 1 := rfl
  have hl : (minLengthFn assertion [.intArg t] out lj az).score =
      if 0 < t then min ((out.answer.length : ℚ) / (t : ℚ)) 1 else 1 := rfl
  have hd : (minDocumentsFn assertion [.intArg t] out lj az).score =
      if 0 < t then min ((out.documents_retrieved : ℚ) / (t : ℚ)) 1 else 1 := rfl
  constructor
  · intro ht
    rw [hc, hl, hd, if_pos ht, if_pos ht, if_pos ht]
    obtain ⟨h1, h2, h3⟩ := threshold_score_core out.citations_count t ht
    obtain ⟨h4, h5, h6⟩ := threshold_score_core out.answer.length t ht
    obtain ⟨h7, h8, h9⟩ := threshold_score_core out.documents_retrieved t ht
    exact ⟨⟨rfl, h1, h2, h3⟩, ⟨rfl, h4, h5, h6⟩, ⟨rfl, h7, h8, h9⟩⟩
  · intro ht
    rw [hc, hl, hd, if_neg (by omega), if_neg (by omega), if_neg (by omega)]
    exact ⟨rfl, rfl, rfl⟩

/-- Witness for C1 at target 2 and the sample output (3 citations). -/
theorem threshold_count_steps_contract_witness :
    (minCitationsFn "there should be at least citations" [.intArg 2]
      sampleOutput none none).score = 1 ↔
    (2 : ℤ) ≤ (sampleOutput.citations_count : ℤ) := by
  exact ((threshold_count_steps_contract "there should be at least citations"
    sampleOutput 2 none none).1 (by norm_num)).1.2.2.2

/-- C2: for a positive latency threshold `t` the "completion time should be
under" step score is non-increasing in the elapsed time, is `1.0` at
elapsed `0`, is `0.5` at elapsed `t`, and is `0.0` at every elapsed time
of at least `2t`. -/
theorem latency_step_contract (assertion : String) (out : ResearchOutput)
    (t : ℚ) (lj : Option LLMJudge) (az : Option AzureEvaluators)
    (ht : 0 < t) :
    (∀ x1 x2 : ℚ, x1 ≤ x2 →
      (maxTimeFn assertion [.ratArg t] { out with completion_time := x2 } lj az).score ≤
      (maxTimeFn assertion [.ratArg t] { out with completion_time := x1 } lj az).score)
    ∧ (maxTimeFn assertion [.ratArg t] { out with completion_time := 0 } lj az).score = 1
    ∧ (maxTimeFn assertion [.ratArg t] { out with completion_time := t } lj az).score = 1 / 2
    ∧ (∀ x : ℚ, 2 * t ≤ x →
        (maxTimeFn assertion [.ratArg t] { out with completion_time := x } lj az).score = 0) := by
  have hs : ∀ x : ℚ,
      (maxTimeFn assertion [.ratArg t] { out with completion_time := x } lj az).score =
      pyRound2 (if x ≥ t * 2 then 0 else max 0 (1 - x / (t * 2))) := fun x => rfl
  have ht2 : (0 : ℚ) < t * 2 := by linarith
  refine ⟨?_, ?_, ?_, ?_⟩
  · intro x1 x2 h12
    rw [hs x1, hs x2]
    apply pyRound2_mono
    by_cases h2 : x2 ≥ t * 2
    · rw [if_pos h2]
      split_ifs with h1
      · exact le_rfl
      · exact le_max_left 0 _
    · rw [if_neg h2, if_neg (by linarith)]
      apply max_le_max le_rfl
      have : x1 / (t * 2) ≤ x2 / (t * 2) := by
        exact div_le_div_of_nonneg_right h12 ht2.le
      linarith
  · rw [hs 0, if_neg (by linarith)]
    have : (0 : ℚ) / (t * 2) = 0 := zero_div _
    rw [this]
    norm_num [pyRound2_one]
  · rw [hs t, if_neg (by linarith)]
    have hdiv : t / (t * 2) = 1 / 2 := by
      rw [div_eq_iff (by linarith : t * 2 ≠ 0)]
      ring
    rw [hdiv]
    have hmax : max (0 : ℚ) (1 - 1 / 2) = 1 / 2 := by norm_num
    rw [hmax]
    exact pyRound2_half
  · intro x hx
    rw [hs x, if_pos (by linarith)]
    exact pyRound2_zero

/-- Witness for C2 at threshold 10 and the sample output: the score at
elapsed time equal to the threshold is one half. -/
theorem latency_step_contract_witness :
    (maxTimeFn "completion time should be under" [.ratArg 10]
      { sampleOutput with completion_time := 10 } none none).score = 1 / 2 := by
  have h := (latency_step_contract "completion time should be under"
    sampleOutput 10 none none (by norm_num)).2.2.1
  exact h

/-- C3: `ResearcherCriticOrchestrator.research` invokes the Researcher at
least once and at most `MAX_ITERATIONS = 3` times; no round before the
last executed one satisfies the exit condition; an early exit happens
exactly at a round whose critique is unparseable, has
`quality_score ≥ 0.7`, or has `is_sufficient` (the `rcStop` condition);
an unparseable critique at any round ends the loop at that round with the
current answer accepted (no error is raised — the loop returns normally
with the round's answer). -/
theorem researcher_critic_loop_contract (answers : ℕ → String)
    (crits : ℕ → CriticReply) :
    (1 ≤ (rcResearchLoop answers crits).2 ∧ (rcResearchLoop answers crits).2 ≤ 3)
    ∧ (∀ j, j + 1 < (rcResearchLoop answers crits).2 → rcStop (crits j) = false)
    ∧ ((rcResearchLoop answers crits).2 < 3 →
        rcStop (crits ((rcResearchLoop answers crits).2 - 1)) = true)
    ∧ (∀ j, j < 3 → (∀ k, k < j → rcStop (crits k) = false) →
        rcStop (crits j) = true →
        rcResearchLoop answers crits = (answers j, j + 1))
    ∧ (∀ j, j < 3 → (∀ k, k < j → rcStop (crits k) = false) →
        crits j = .unparseable →
        rcResearchLoop answers crits = (answers j, j + 1))
    ∧ (rcResearchLoop answers crits).1 =
        answers ((rcResearchLoop answers crits).2 - 1) := by
  unfold rcResearchLoop
  refine ⟨⟨?_, ?_⟩, ?_, ?_, ?_, ?_, ?_⟩
  · simpa using feedbackLoop_count_pos (fun i => rcStop (crits i)) answers 3 0 ""
      (by norm_num)
  · simpa using feedbackLoop_count_le (fun i => rcStop (crits i)) answers 3 0 ""
  · intro j hj
    exact feedbackLoop_no_stop_before (fun i => rcStop (crits i)) answers 3 0 "" j
      (Nat.zero_le j) hj
  · intro hlt
    exact feedbackLoop_early_stop (fun i => rcStop (crits i)) answers 3 0 ""
      (by simpa using hlt)
  · intro j hj hpre hstop
    exact feedbackLoop_stop_at (fun i => rcStop (crits i)) answers 3 0 "" j
      (Nat.zero_le j) (by omega) (fun k _ hk => hpre k hk) hstop
  · intro j hj hpre hunp
    refine feedbackLoop_stop_at (fun i => rcStop (crits i)) answers 3 0 "" j
      (Nat.zero_le j) (by omega) (fun k _ hk => hpre k hk) ?_
    show rcStop (crits j) = true
    rw [hunp]
    rfl
  · exact feedbackLoop_final_ans (fun i => rcStop (crits i)) answers 3 0 ""
      (by norm_num)

/-- Witness for C3: an unparseable critique at round 0 ends the loop with
one Researcher invocation and the round-0 answer. -/
theorem researcher_critic_loop_contract_witness :
    rcResearchLoop (fun i => natStr i) (fun _ => .unparseable) =
      (natStr 0, 0 + 1) := by
  exact (researcher_critic_loop_contract (fun i => natStr i)
    (fun _ => .unparseable)).2.2.2.2.1 0 (by norm_num)
    (fun k hk => absurd hk (Nat.not_lt_zero k)) rfl

/-- C10: a parseable critique that contains neither `is_sufficient` nor
`quality_score` stops the Supervisor-Worker and Plan-and-Execute loops at
the current round (their `dict.get` defaults are `True` / `1.0`), while
the Researcher-Critic loop treats the same reply as insufficient (its
defaults are `False` / `0`) and continues to the next round when rounds
remain. -/
theorem critic_missing_fields_divergence (findings outputs answers : ℕ → String)
    (crits : ℕ → CriticReply) (j : ℕ) (hj : j < 3)
    (hpre : ∀ k, k < j →
      swStop (crits k) = false ∧ peStop (crits k) = false ∧
      rcStop (crits k) = false)
    (hrep : crits j = .parsed none none) :
    swRoundsRun findings crits = j + 1
    ∧ peAttemptsRun outputs crits = j + 1
    ∧ (j + 1 < 3 → j + 2 ≤ (rcResearchLoop answers crits).2)
    ∧ swStop (.parsed none none) = true
    ∧ peStop (.parsed none none) = true
    ∧ rcStop (.parsed none none) = false := by
  have hswj : swStop (crits j) = true := by rw [hrep]; norm_num [swStop]
  have hpej : peStop (crits j) = true := by rw [hrep]; norm_num [peStop]
  have hrcj : rcStop (crits j) = false := by rw [hrep]; norm_num [rcStop]
  refine ⟨?_, ?_, ?_, by norm_num [swStop], by norm_num [peStop],
    by norm_num [rcStop]⟩
  · unfold swRoundsRun
    rw [feedbackLoop_stop_at (fun i => swStop (crits i)) findings 3 0 "" j
      (Nat.zero_le j) (by omega) (fun k _ hk => (hpre k hk).1) hswj]
  · unfold peAttemptsRun
    rw [feedbackLoop_stop_at (fun i => peStop (crits i)) outputs 3 0 "" j
      (Nat.zero_le j) (by omega) (fun k _ hk => (hpre k hk).2.1) hpej]
  · intro hj2
    unfold rcResearchLoop
    apply feedbackLoop_continue (fun i => rcStop (crits i)) answers 3 0 "" j
      (Nat.zero_le j) (by omega)
    intro k hk0 hkj
    rcases Nat.lt_or_ge k j with hk | hk
    · exact (hpre k hk).2.2
    · have hkeq : k = j := by omega
      rw [hkeq]
      exact hrcj

/-- Witness for C10: the no-fields critique at round 0 stops the
Supervisor-Worker and Plan-and-Execute loops after one round while the
Researcher-Critic loop runs at least two rounds. -/
theorem critic_missing_fields_divergence_witness :
    swRoundsRun (fun _ => "findings") (fun _ => .parsed none none) = 0 + 1
    ∧ peAttemptsRun (fun _ => "plan output") (fun _ => .parsed none none) = 0 + 1
    ∧ 0 + 2 ≤ (rcResearchLoop (fun _ => "answer") (fun _ => .parsed none none)).2 := by
  have h := critic_missing_fields_divergence (fun _ => "findings")
    (fun _ => "plan output") (fun _ => "answer") (fun _ => .parsed none none)
    0 (by norm_num) (fun k hk => absurd hk (Nat.not_lt_zero k)) rfl
  exact ⟨h.1, h.2.1, h.2.2.1 (by norm_num)⟩

/-- C6: citation extraction returns the distinct marker numbers in
strictly ascending order (rendered as strings); it is order-independent
— two answers whose marker-number sequences are permutations of one
another extract identically; it is idempotent — any string whose marker
numbers are exactly a previous extraction result extracts to that same
result; and the concrete example `"[2] text [1] [2]"` yields exactly the
citation numbers `"1"` and `"2"`. -/
theorem citation_extraction_contract :
    (∀ s1 s2 : String, (citationNumbersIn s1).Perm (citationNumbersIn s2) →
      extract_citations s1 = extract_citations s2)
    ∧ (∀ s t : String, citationNumbersIn t = sortedCitationNums s →
        sortedCitationNums t = sortedCitationNums s
        ∧ extract_citations t = extract_citations s)
    ∧ (∀ s : String, List.Pairwise (· < ·) (sortedCitationNums s))
    ∧ extract_citations "[2] text [1] [2]" = [⟨"1"⟩, ⟨"2"⟩] := by
  have hsorted : ∀ s : String, List.Sorted (· ≤ ·) (sortedCitationNums s) :=
    fun s => List.sorted_insertionSort _ _
  have hperm : ∀ s : String,
      (sortedCitationNums s).Perm ((citationNumbersIn s).dedup) :=
    fun s => List.perm_insertionSort _ _
  have hnodup : ∀ s : String, (sortedCitationNums s).Nodup :=
    fun s => ((hperm s).nodup_iff).mpr (List.nodup_dedup _)
  have horder : ∀ s1 s2 : String,
      (citationNumbersIn s1).Perm (citationNumbersIn s2) →
      sortedCitationNums s1 = sortedCitationNums s2 := by
    intro s1 s2 hp
    refine List.eq_of_perm_of_sorted ?_ (hsorted s1) (hsorted s2)
    exact (hperm s1).trans (hp.dedup.trans (hperm s2).symm)
  refine ⟨?_, ?_, ?_, by decide⟩
  · intro s1 s2 hp
    unfold extract_citations
    rw [horder s1 s2 hp]
  · intro s t hEq
    have hfix : sortedCitationNums t = sortedCitationNums s := by
      unfold sortedCitationNums
      rw [hEq]
      rw [List.dedup_eq_self.mpr (hnodup s)]
      exact List.eq_of_perm_of_sorted (List.perm_insertionSort _ _)
        (List.sorted_insertionSort _ _) (hsorted s)
    refine ⟨hfix, ?_⟩
    unfold extract_citations
    rw [hfix]
  · intro s
    exact (hsorted s).lt_of_le (hnodup s)

/-- Witness for C6: a permuted marker sequence and a re-extraction of the
previous result both reproduce the extraction of the running example. -/
theorem citation_extraction_contract_witness :
    extract_citations "[1][2]" = extract_citations "[2] [1]"
    ∧ sortedCitationNums "[1][2]" = sortedCitationNums "[2] text [1] [2]" := by
  constructor
  · exact citation_extraction_contract.1 "[1][2]" "[2] [1]" (by decide)
  · exact (citation_extraction_contract.2.1 "[2] text [1] [2]" "[1][2]"
      (by decide)).1

/-- C8: when the first matching step definition requires the LLM judge and
none was supplied, `match_step` returns score `1.0` with the
"Skipped (no LLM judge configured)" detail marked LLM-judged; when it
requires the Azure evaluators and none were supplied, it likewise returns
score `1.0` with the Azure skip detail marked LLM-judged — for every
assertion, argument list, and research output. -/
theorem match_step_skip_contract (assertion : String) (args : List StepArg)
    (out : ResearchOutput) (d : StepDef)
    (hfind : stepDefs.find?
      (fun sd => strStartsWith (pyLower assertion) (pyLower sd.pattern)) = some d) :
    (∀ az, d.is_llm = true →
      matchStep assertion args out none az = skipLLMResult assertion args
      ∧ (skipLLMResult assertion args).score = 1
      ∧ (skipLLMResult assertion args).detail = "Skipped (no LLM judge configured)"
      ∧ (skipLLMResult assertion args).is_llm_judged = true)
    ∧ (∀ lj, d.is_llm = false → d.is_azure_eval = true →
      matchStep assertion args out lj none = skipAzureResult assertion args d.pattern
      ∧ (skipAzureResult assertion args d.pattern).score = 1
      ∧ (skipAzureResult assertion args d.pattern).detail =
          "Skipped (Azure evaluators not configured)"
      ∧ (skipAzureResult assertion args d.pattern).is_llm_judged = true) := by
  constructor
  · intro az hllm
    refine ⟨?_, rfl, rfl, rfl⟩
    unfold matchStep
    rw [hfind]
    simp [hllm]
  · intro lj hllm haz
    refine ⟨?_, rfl, rfl, rfl⟩
    unfold matchStep
    rw [hfind]
    simp [hllm, haz]

/-- Witness for C8 at an LLM-judged and an Azure-judged assertion with no
judge or evaluators supplied. -/
theorem match_step_skip_contract_witness :
    matchStep "the answer should be comprehensive" [] sampleOutput none none =
      skipLLMResult "the answer should be comprehensive" []
    ∧ matchStep "azure relevance score" [] sampleOutput none none =
      skipAzureResult "azure relevance score" [] "azure relevance score" := by
  constructor
  · exact ((match_step_skip_contract "the answer should be comprehensive" []
      sampleOutput ⟨"the answer should be", answerQualityFn, true, false⟩
      rfl).1 none rfl).1
  · exact ((match_step_skip_contract "azure relevance score" []
      sampleOutput ⟨"azure relevance score", azureRelevanceFn, false, true⟩
      rfl).2 none rfl rfl).1

/-- C7: `match_step` dispatches on the first registered pattern, in
registration order, that is a case-insensitive prefix of the assertion:
every assertion beginning "the answer should be at least" runs the
character-length step (`_min_length`), not the later, more general
LLM-judged "the answer should be" step; and when no registered pattern is
a prefix of the assertion the step scores `0.0` with the
"No step definition found" detail. -/
theorem match_step_dispatch_contract :
    (∀ (suffix : String) (args : List StepArg) (out : ResearchOutput)
        (lj : Option LLMJudge) (az : Option AzureEvaluators),
      matchStep ("the answer should be at least" ++ suffix) args out lj az =
        minLengthFn ("the answer should be at least" ++ suffix) args out lj az)
    ∧ (∀ (assertion : String) (args : List StepArg) (out : ResearchOutput)
        (lj : Option LLMJudge) (az : Option AzureEvaluators),
        (∀ d ∈ stepDefs,
          strStartsWith (pyLower assertion) (pyLower d.pattern) = false) →
        matchStep assertion args out lj az =
          { step_text := formatStep assertion args, score := 0,
            detail := "No step definition found for: " ++ assertion }) := by
  constructor
  · intro suffix args out lj az
    have e1 : strStartsWith
        (pyLower ("the answer should be at least" ++ suffix))
        (pyLower "the answer should mention") = false := by
      rw [strStartsWith_lower_append _ _ _ (by decide)]
      decide
    have e2 : strStartsWith
        (pyLower ("the answer should be at least" ++ suffix))
        (pyLower "the answer should not mention") = false := by
      rw [strStartsWith_lower_append _ _ _ (by decide)]
      decide
    have e3 : strStartsWith
        (pyLower ("the answer should be at least" ++ suffix))
        (pyLower "there should be at least") = false := by
      rw [strStartsWith_lower_append _ _ _ (by decide)]
      decide
    have e4 : strStartsWith
        (pyLower ("the answer should be at least" ++ suffix))
        (pyLower "the answer should be at least") = true :=
      strStartsWith_lower_append_of_true _ _ _ (by decide)
    have hfind : stepDefs.find?
        (fun d => strStartsWith
          (pyLower ("the answer should be at least" ++ suffix))
          (pyLower d.pattern)) =
        some ⟨"the answer should be at least", minLengthFn, false, false⟩ := by
      unfold stepDefs
      rw [List.find?_cons_of_neg _ (by simpa using e1),
        List.find?_cons_of_neg _ (by simpa using e2),
        List.find?_cons_of_neg _ (by simpa using e3),
        List.find?_cons_of_pos _ (by simpa using e4)]
    unfold matchStep
    rw [hfind]
    rfl
  · intro assertion args out lj az hall
    have hfind : stepDefs.find?
        (fun d => strStartsWith (pyLower assertion) (pyLower d.pattern)) =
        none := by
      refine List.find?_eq_none.mpr ?_
      intro d hd
      simp [hall d hd]
    unfold matchStep
    rw [hfind]
    rfl

/-- Witness for C7: a concrete "at least" assertion dispatching to the
length step, and a concrete unmatched assertion hitting the fail-closed
default. -/
theorem match_step_dispatch_contract_witness :
    matchStep ("the answer should be at least" ++ " 150 characters")
      [.intArg 150] sampleOutput none none =
      minLengthFn ("the answer should be at least" ++ " 150 characters")
        [.intArg 150] sampleOutput none none
    ∧ matchStep "totally unmatched assertion" [] sampleOutput none none =
      { step_text := formatStep "totally unmatched assertion" [], score := 0,
        detail := "No step definition found for: " ++ "totally unmatched assertion" } := by
  constructor
  · exact match_step_dispatch_contract.1 " 150 characters" [.intArg 150]
      sampleOutput none none
  · exact match_step_dispatch_contract.2 "totally unmatched assertion" []
      sampleOutput none none (by decide)
